import Mathlib

set_option autoImplicit false

/-!
Shallow embedding of the goipa FreeIPA client library (Go) for checking its
natural-language specification.

The embedding follows the current revision of the sources: the transport and
session layer (`rpc`, `setSessionID`, `RemoteLogin`, sentinel error values),
the value-decoding helpers (`IpaString.UnmarshalJSON`, `ParseDateTime`) and
the user-record helpers (`UserAdd` error classification,
`AddSSHAuthorizedKey`).  Network and JSON-parsing side effects are made
explicit: an HTTP exchange is represented by the response the Go code
inspects, and a body that fails `json.Unmarshal` is represented by `none`.
-/

namespace GoIpa

/-- The mutable client state of `type Client struct` (ipa.go).  The
`httpClient` and `krbClient` handles are external collaborators; the only
fact about `krbClient` the transport inspects is whether it is nil, kept
here as `hasKrbClient`. -/
structure Client where
  host : String
  realm : String
  keyTab : String
  sessionID : String
  sticky : Bool
  hasKrbClient : Bool
  deriving DecidableEq

/-- `type IpaError struct` (ipa.go): the structured error unmarshalled from
the JSON envelope's `error` field. -/
structure IpaError where
  message : String
  code : Int
  deriving DecidableEq

/-- `type Result struct` (ipa.go).  `data` keeps the raw JSON of the
`result` field, which the transport layer treats opaquely. -/
structure RpcResult where
  summary : String
  data : String
  deriving DecidableEq

/-- `type Response struct` (ipa.go): the JSON envelope of an RPC reply. -/
structure Response where
  error : Option IpaError
  id : Int
  principal : String
  version : String
  result : Option RpcResult
  deriving DecidableEq

/-- A Go `error` value as produced by this library.  Each package-level
sentinel created by `errors.New` is a distinct constructor, mirroring the
distinct heap allocations Go compares by pointer identity; `ipaError` is a
returned `*IpaError`; `httpError` is the `fmt.Errorf` wrapping an HTTP
status code with a context string; `invalidSetCookie` is the
`errors.New` result inside `setSessionID`; `jsonError` stands for a
`json.Unmarshal` failure; `errorsNew` is a locally allocated
`errors.New(msg)`. -/
inductive GoError where
  | errPasswordPolicy
  | errInvalidPassword
  | errExpiredPassword
  | errUnauthorized
  | errUserExists
  | ipaError (e : IpaError)
  | httpError (context : String) (status : Nat)
  | invalidSetCookie
  | jsonError
  | errorsNew (msg : String)
  deriving DecidableEq

/-- The `Error()` string of each error value.  Note that `ErrUserExists`
is declared in the source as `errors.New("unauthorized")`, so its message
collides with `ErrUnauthorized` even though the two are distinct values. -/
def GoError.message : GoError → String
  | .errPasswordPolicy => "password does not conform to policy"
  | .errInvalidPassword => "invalid current password"
  | .errExpiredPassword => "password expired"
  | .errUnauthorized => "unauthorized"
  | .errUserExists => "unauthorized"
  | .ipaError e => "ipa: error " ++ toString e.code ++ " - " ++ e.message
  | .httpError context status => context ++ ": " ++ toString status
  | .invalidSetCookie => "invalid set-cookie header"
  | .jsonError => "json: cannot unmarshal"
  | .errorsNew msg => msg

deriving instance DecidableEq for Except

/-- The parts of an `http.Response` the goipa code reads: the status code,
the `Set-Cookie` header (`""` when absent, as `Header.Get` returns), the
`X-IPA-Rejection-Reason` header, and the body decoded as a `Response`
envelope (`none` when `json.Unmarshal` of the body fails). -/
structure HttpResponse where
  statusCode : Nat
  setCookie : String
  rejectionReason : String
  body : Option Response
  deriving DecidableEq

/-- Go `strings.HasPrefix(s, p)`, computed on the character lists so that
it reduces inside the kernel. -/
def goHasPrefix (s p : String) : Bool :=
  p.data.isPrefixOf s.data

/-- The regular expression `ipaSessionPattern = ^ipa_session=([^;]+);`
applied by `FindStringSubmatch`: anchored at the start, it captures the
non-empty run of non-semicolon characters following `ipa_session=`,
and requires a `;` right after the run.  Returns the captured group. -/
def extractIpaSession (cookie : String) : Option String :=
  if goHasPrefix cookie "ipa_session=" then
    let rest := cookie.data.drop 12
    let v := rest.takeWhile (fun ch => ch ≠ ';')
    if 0 < v.length ∧ v.length < rest.length then some (String.mk v) else none
  else none

/-- Field update helper for the one field `setSessionID` assigns. -/
def Client.withSessionID (c : Client) (s : String) : Client :=
  ⟨c.host, c.realm, c.keyTab, s, c.sticky, c.hasKrbClient⟩

/-- `func (c *Client) setSessionID(res *http.Response) error` (ipa.go):
when sticky sessions are off, or the `Set-Cookie` header is empty, do
nothing; otherwise extract the `ipa_session` value (empty string when the
pattern does not match), store it when it is 32 characters long or starts
with `MagBearerToken`, and fail with the invalid set-cookie error
otherwise.  Returns the updated client and the returned `error`. -/
def setSessionID (c : Client) (cookie : String) : Client × Option GoError :=
  if c.sticky = false then (c, none)
  else if cookie.length = 0 then (c, none)
  else
    let ipaSession := (extractIpaSession cookie).getD ""
    if ipaSession.length = 32 ∨ goHasPrefix ipaSession "MagBearerToken" then
      (c.withSessionID ipaSession, none)
    else
      (c, some GoError.invalidSetCookie)

/-- URL selection in `func (c *Client) rpc` (ipa.go): the anonymous JSON
endpoint by default, overridden by the session endpoint when a session id
is stored. -/
def rpcUrl (c : Client) : String :=
  if 0 < c.sessionID.length then "https://" ++ c.host ++ "/ipa/session/json"
  else "https://" ++ c.host ++ "/ipa/json"

/-- The authentication material `rpc` attaches to the outgoing request:
exactly one of a `Cookie` header, a SPNEGO header, or nothing. -/
inductive AuthHeader where
  | cookie (value : String)
  | spnego
  | noAuth
  deriving DecidableEq

/-- Header selection in `func (c *Client) rpc` (ipa.go): a stored session
id is sent as the `ipa_session` cookie; otherwise a non-nil Kerberos
client signs a SPNEGO header; otherwise no authentication is attached. -/
def rpcAuthHeader (c : Client) : AuthHeader :=
  if 0 < c.sessionID.length then AuthHeader.cookie ("ipa_session=" ++ c.sessionID)
  else if c.hasKrbClient then AuthHeader.spnego
  else AuthHeader.noAuth

/-- Context string of the `fmt.Errorf` for a non-200 RPC status
(`"IPA RPC called failed with HTTP status code: %d"`, typo preserved). -/
def rpcFailContext : String := "IPA RPC called failed with HTTP status code"

/-- Context string of the `fmt.Errorf` for a non-200 login status. -/
def loginFailContext : String := "IPA login failed with HTTP status code"

/-- Response handling of `func (c *Client) rpc` (ipa.go) after
`httpClient.Do`: reject a non-200 status with the status-code error, run
`setSessionID` and propagate its error, reject a body that does not
unmarshal, surface a populated envelope `error` field as the `*IpaError`,
and otherwise return the envelope.  The first component is the client
state after the call (only `setSessionID` mutates it). -/
def rpcRespond (c : Client) (res : HttpResponse) : Client × Except GoError Response :=
  if res.statusCode ≠ 200 then
    (c, Except.error (GoError.httpError rpcFailContext res.statusCode))
  else
    match setSessionID c res.setCookie with
    | (c2, some e) => (c2, Except.error e)
    | (c2, none) =>
      match res.body with
      | none => (c2, Except.error GoError.jsonError)
      | some ipaRes =>
        match ipaRes.error with
        | some e => (c2, Except.error (GoError.ipaError e))
        | none => (c2, Except.ok ipaRes)

/-- Response handling of `func (c *Client) RemoteLogin` (ipa.go): a 401
status is mapped through the `X-IPA-Rejection-Reason` header to one of the
three sentinel errors, any other non-200 status to the status-code error,
and a 200 response through `setSessionID`. -/
def remoteLoginRespond (c : Client) (res : HttpResponse) : Client × Option GoError :=
  if res.statusCode = 401 ∧ res.rejectionReason = "password-expired" then
    (c, some GoError.errExpiredPassword)
  else if res.statusCode = 401 ∧ res.rejectionReason = "invalid-password" then
    (c, some GoError.errInvalidPassword)
  else if res.statusCode = 401 then
    (c, some GoError.errUnauthorized)
  else if res.statusCode ≠ 200 then
    (c, some (GoError.httpError loginFailContext res.statusCode))
  else
    setSessionID c res.setCookie

/-- `func (c *Client) UserAdd(user *User, random bool)` (user.go), with the
record decoding of the success path kept abstract: an empty username is
rejected up front; an error from `rpc` that is a `*IpaError` with code
4002 is replaced by the `ErrUserExists` sentinel; any other error is
propagated unchanged; a successful envelope is returned. -/
def UserAdd (username : String) (rpcOutcome : Except GoError Response) :
    Except GoError Response :=
  if username = "" then Except.error (GoError.errorsNew "Username is required")
  else
    match rpcOutcome with
    | Except.error e =>
      match e with
      | GoError.ipaError ie =>
        if ie.code = 4002 then Except.error GoError.errUserExists
        else Except.error (GoError.ipaError ie)
      | other => Except.error other
    | Except.ok r => Except.ok r

/-- `func (s *IpaString) UnmarshalJSON(b []byte) error` (ipa.go) on a byte
slice that unmarshals to the string slice `a`: when `a` is non-empty the
receiver is set to its first element, otherwise the receiver keeps its
previous value (the zero value `""` in a fresh decode). -/
def ipaStringUnmarshal (prev : String) (a : List String) : String :=
  match a with
  | [] => prev
  | x :: _ => x

/-- The fallible layer of `IpaString.UnmarshalJSON`: `none` stands for
input bytes on which `json.Unmarshal` into `[]string` fails (and the
error is returned); on any successfully parsed array no error occurs. -/
def ipaStringUnmarshalJSON (prev : String) (b : Option (List String)) :
    Except GoError String :=
  match b with
  | none => Except.error GoError.jsonError
  | some a => Except.ok (ipaStringUnmarshal prev a)

/-- The civil timestamp produced by `time.Parse`; the layout
`20060102150405Z` carries no zone directive, so the location is always
UTC and is omitted.  The Go zero `time.Time` is January 1 of year 1,
00:00:00. -/
structure GoTime where
  year : Nat
  month : Nat
  day : Nat
  hour : Nat
  minute : Nat
  second : Nat
  deriving DecidableEq

/-- The zero `time.Time{}`: January 1, year 1, 00:00:00 UTC. -/
def GoTime.zero : GoTime := ⟨1, 1, 1, 0, 0, 0⟩

/-- Go `isLeap`: the Gregorian leap-year rule used by `time`. -/
def isLeap (y : Nat) : Bool :=
  y % 4 = 0 && (y % 100 ≠ 0 || y % 400 = 0)

/-- Days in a month, as validated by Go `time.Parse` (`daysIn`). -/
def daysInMonth (y m : Nat) : Nat :=
  if m = 2 then (if isLeap y then 29 else 28)
  else if m = 4 ∨ m = 6 ∨ m = 9 ∨ m = 11 then 30
  else 31

/-- Numeric value of a decimal digit character. -/
def digitVal (ch : Char) : Option Nat :=
  if ch.isDigit then some (ch.toNat - 48) else none

/-- Two fixed decimal digits, as Go's zero-padded two-digit fields. -/
def num2 (a b : Char) : Option Nat := do
  let x ← digitVal a
  let y ← digitVal b
  pure (10 * x + y)

/-- Four fixed decimal digits, as Go's four-digit year field. -/
def num4 (a b c d : Char) : Option Nat := do
  let x ← num2 a b
  let y ← num2 c d
  pure (100 * x + y)

/-- `time.Parse` with the fixed layout `IpaDatetimeFormat =
"20060102150405Z"`: exactly four year digits, two digits each for month,
day, hour, minute and second, and a literal `Z`; the parsed fields must
pass Go's range checks (month 1-12, day within the month, hour below 24,
minute and second below 60).  `none` is a parse error. -/
def timeParseCompact (s : String) : Option GoTime :=
  match s.data with
  | [y1, y2, y3, y4, a1, a2, d1, d2, h1, h2, n1, n2, c1, c2, z] =>
    if z = 'Z' then do
      let year ← num4 y1 y2 y3 y4
      let month ← num2 a1 a2
      let day ← num2 d1 d2
      let hour ← num2 h1 h2
      let minute ← num2 n1 n2
      let second ← num2 c1 c2
      if 1 ≤ month ∧ month ≤ 12 ∧ 1 ≤ day ∧ day ≤ daysInMonth year month
          ∧ hour ≤ 23 ∧ minute ≤ 59 ∧ second ≤ 59 then
        pure ⟨year, month, day, hour, minute, second⟩
      else none
    else none
  | _ => none

/-- `func ParseDateTime(str string) time.Time` (ipa.go): parse with the
compact layout and degrade a parse failure to the zero time. -/
def ParseDateTime (str : String) : GoTime :=
  match timeParseCompact str with
  | none => GoTime.zero
  | some t => t

/-- `type SSHAuthorizedKey struct` (user.go).  The parsed public key is
opaque to the list operations; the fingerprint is the SHA256 fingerprint
computed at construction, kept here as plain data. -/
structure SSHAuthorizedKey where
  comment : String
  options : List String
  publicKey : String
  fingerprint : String
  deriving DecidableEq

/-- Index computed by the loop in `AddSSHAuthorizedKey` (user.go): the
loop walks the whole list without breaking and overwrites `index` at
every fingerprint match, so it ends at the last matching index, or `-1`
(`none`) when there is no match. -/
def lastFpIdx (fp : String) : List SSHAuthorizedKey → Option Nat
  | [] => none
  | k :: ks =>
    match lastFpIdx fp ks with
    | some i => some (i + 1)
    | none => if k.fingerprint = fp then some 0 else none

/-- `func (u *User) AddSSHAuthorizedKey(key *SSHAuthorizedKey)` (user.go):
append the key when its fingerprint does not occur, otherwise overwrite
the entry at the (last) matching index. -/
def addSSHAuthorizedKey (keys : List SSHAuthorizedKey) (key : SSHAuthorizedKey) :
    List SSHAuthorizedKey :=
  match lastFpIdx key.fingerprint keys with
  | none => keys ++ [key]
  | some i => keys.set i key

/-- Index computed by the loop in `RemoveSSHAuthorizedKey` (user.go): this
loop breaks at the first match, so it ends at the first matching index. -/
def firstFpIdx (fp : String) : List SSHAuthorizedKey → Option Nat
  | [] => none
  | k :: ks =>
    if k.fingerprint = fp then some 0
    else
      match firstFpIdx fp ks with
      | some i => some (i + 1)
      | none => none

/-- `func (u *User) RemoveSSHAuthorizedKey(fingerprint string)` (user.go):
delete the entry at the first matching index, if any. -/
def removeSSHAuthorizedKey (keys : List SSHAuthorizedKey) (fp : String) :
    List SSHAuthorizedKey :=
  match firstFpIdx fp keys with
  | none => keys
  | some i => keys.eraseIdx i

/-! ## Helper lemmas -/

theorem string_length_pos (s : String) : 0 < s.length ↔ s ≠ "" := by
  constructor
  · intro h he
    subst he
    simp at h
  · intro h
    cases s with
    | mk l =>
      cases l with
      | nil => exact absurd rfl h
      | cons a t => simp [String.length]

/-! ## Claims about the transport layer -/

/-- Claim C1: every rpc call POSTs to the session-scoped path
`/ipa/session/json` when the stored session token is non-empty, and to
the anonymous path `/ipa/json` when it is empty. -/
theorem claim_C1 (c : Client) :
    (c.sessionID ≠ "" → rpcUrl c = "https://" ++ c.host ++ "/ipa/session/json") ∧
    (c.sessionID = "" → rpcUrl c = "https://" ++ c.host ++ "/ipa/json") := by
  constructor
  · intro h
    simp [rpcUrl, (string_length_pos c.sessionID).mpr h]
  · intro h
    simp [rpcUrl, h]

/-- Witness for C1 at concrete clients with and without a session token. -/
theorem claim_C1_witness :
    rpcUrl ⟨"ipa.example.org", "EXAMPLE.ORG", "", "tok", true, false⟩ =
      "https://ipa.example.org/ipa/session/json" ∧
    rpcUrl ⟨"ipa.example.org", "EXAMPLE.ORG", "", "", true, false⟩ =
      "https://ipa.example.org/ipa/json" :=
  ⟨(claim_C1 ⟨"ipa.example.org", "EXAMPLE.ORG", "", "tok", true, false⟩).1 (by decide),
   (claim_C1 ⟨"ipa.example.org", "EXAMPLE.ORG", "", "", true, false⟩).2 rfl⟩

/-- Claim C2: authentication attachment precedence of `rpc`: a non-empty
session token is sent as the `ipa_session` cookie (and no SPNEGO header
is set); with an empty token a present Kerberos client yields a SPNEGO
header; with neither, no authentication header is attached. -/
theorem claim_C2 (c : Client) :
    (c.sessionID ≠ "" →
      rpcAuthHeader c = AuthHeader.cookie ("ipa_session=" ++ c.sessionID)) ∧
    (c.sessionID = "" → c.hasKrbClient = true → rpcAuthHeader c = AuthHeader.spnego) ∧
    (c.sessionID = "" → c.hasKrbClient = false → rpcAuthHeader c = AuthHeader.noAuth) := by
  refine ⟨fun h => ?_, fun h hk => ?_, fun h hk => ?_⟩
  · simp [rpcAuthHeader, (string_length_pos c.sessionID).mpr h]
  · simp [rpcAuthHeader, h, hk]
  · simp [rpcAuthHeader, h, hk]

/-- Witness for C2 exercising all three branches at concrete clients. -/
theorem claim_C2_witness :
    rpcAuthHeader ⟨"h", "R", "", "tok", true, true⟩ =
      AuthHeader.cookie "ipa_session=tok" ∧
    rpcAuthHeader ⟨"h", "R", "", "", true, true⟩ = AuthHeader.spnego ∧
    rpcAuthHeader ⟨"h", "R", "", "", true, false⟩ = AuthHeader.noAuth :=
  ⟨(claim_C2 ⟨"h", "R", "", "tok", true, true⟩).1 (by decide),
   (claim_C2 ⟨"h", "R", "", "", true, true⟩).2.1 rfl rfl,
   (claim_C2 ⟨"h", "R", "", "", true, false⟩).2.2 rfl rfl⟩

/-- Claim C9: with sticky sessions disabled, processing a `Set-Cookie`
header is a complete no-op: the client (in particular its stored session
token) is unchanged and no error is returned, whatever the cookie value. -/
theorem claim_C9 (c : Client) (cookie : String) (h : c.sticky = false) :
    setSessionID c cookie = (c, none) := by
  simp [setSessionID, h]

/-- Witness for C9: a non-sticky client swallows a malformed cookie. -/
theorem claim_C9_witness :
    setSessionID ⟨"h", "R", "", "prior", false, false⟩ "ipa_session=bad;" =
      (⟨"h", "R", "", "prior", false, false⟩, none) :=
  claim_C9 ⟨"h", "R", "", "prior", false, false⟩ "ipa_session=bad;" rfl

/-- Counterexample to claim C3 as stated: the claim asserts that every
response whose extracted `ipa_session` value matches neither shape makes
the call fail with a transport error, but with sticky sessions disabled
the code ignores the malformed cookie: here the extracted value `bad`
matches neither shape, yet `setSessionID` returns no error and the prior
token is kept. -/
theorem claim_C3_counterexample :
    (extractIpaSession "ipa_session=bad;").getD "" = "bad" ∧
    ¬(("bad" : String).length = 32 ∨ goHasPrefix "bad" "MagBearerToken") ∧
    setSessionID ⟨"h", "R", "", "prior", false, false⟩ "ipa_session=bad;" =
      (⟨"h", "R", "", "prior", false, false⟩, none) := by
  decide

/-- Claim C3, amended: the unconditional failure clause holds only in
sticky-session mode (outside it, `setSessionID` is a no-op, cf. C9).
When sticky mode is enabled and the response carries a non-empty
`Set-Cookie` header: if the extracted `ipa_session` value is neither 32
characters long nor `MagBearerToken`-prefixed, the call fails with the
invalid set-cookie transport error and the stored token is unchanged;
if it matches one of the two shapes it is stored, replacing any prior
token. -/
theorem claim_C3 (c : Client) (cookie : String)
    (hs : c.sticky = true) (hc : 0 < cookie.length) :
    (¬(((extractIpaSession cookie).getD "").length = 32 ∨
        goHasPrefix ((extractIpaSession cookie).getD "") "MagBearerToken") →
      setSessionID c cookie = (c, some GoError.invalidSetCookie)) ∧
    ((((extractIpaSession cookie).getD "").length = 32 ∨
        goHasPrefix ((extractIpaSession cookie).getD "") "MagBearerToken") →
      setSessionID c cookie =
        (c.withSessionID ((extractIpaSession cookie).getD ""), none)) := by
  have hc' : ¬ cookie.length = 0 := by omega
  constructor
  · intro h
    simp [setSessionID, hs, hc', h]
  · intro h
    simp [setSessionID, hs, hc', h]

/-- Witness for C3: a sticky client rejects a malformed cookie unchanged
and stores a `MagBearerToken`-prefixed one. -/
theorem claim_C3_witness :
    setSessionID ⟨"h", "R", "", "prior", true, false⟩ "ipa_session=bad;" =
      (⟨"h", "R", "", "prior", true, false⟩, some GoError.invalidSetCookie) ∧
    setSessionID ⟨"h", "R", "", "prior", true, false⟩
        "ipa_session=MagBearerTokenXYZ;more" =
      (⟨"h", "R", "", "MagBearerTokenXYZ", true, false⟩, none) :=
  ⟨(claim_C3 ⟨"h", "R", "", "prior", true, false⟩ "ipa_session=bad;"
      rfl (by decide)).1 (by decide),
   (claim_C3 ⟨"h", "R", "", "prior", true, false⟩ "ipa_session=MagBearerTokenXYZ;more"
      rfl (by decide)).2 (by decide)⟩

/-- Counterexample to claim C5 as stated: the claim asserts that every 200
response whose envelope has a populated error field fails with the
structured error carrying the server's code and message, but `rpc` runs
`setSessionID` before looking at the body: on a 200 response with a
malformed session cookie and an error envelope, the call fails with the
invalid set-cookie transport error instead of the structured error. -/
theorem claim_C5_counterexample :
    rpcRespond ⟨"h", "R", "", "", true, false⟩
        ⟨200, "ipa_session=bad;", "",
         some ⟨some ⟨"no modifications to be performed", 4202⟩, 0, "", "", none⟩⟩ =
      (⟨"h", "R", "", "", true, false⟩, Except.error GoError.invalidSetCookie) ∧
    GoError.invalidSetCookie ≠
      GoError.ipaError ⟨"no modifications to be performed", 4202⟩ := by
  decide

/-- Claim C5, amended: for every rpc call, a non-200 HTTP status fails
with the transport error carrying the numeric status code; a 200 response
whose `Set-Cookie` processing succeeds and whose JSON envelope has a
populated error field fails with the structured error carrying exactly
the server's numeric code and message; and any rpc call that returns
successfully returns an envelope whose error field is nil. -/
theorem claim_C5 (c : Client) (res : HttpResponse) :
    (res.statusCode ≠ 200 →
      (rpcRespond c res).2 =
        Except.error (GoError.httpError rpcFailContext res.statusCode)) ∧
    (res.statusCode = 200 → (setSessionID c res.setCookie).2 = none →
      ∀ r e, res.body = some r → r.error = some e →
        (rpcRespond c res).2 = Except.error (GoError.ipaError e)) ∧
    (∀ r, (rpcRespond c res).2 = Except.ok r → r.error = none) := by
  refine ⟨fun h => ?_, fun h200 hck r e hb he => ?_, fun r hok => ?_⟩
  · simp [rpcRespond, h]
  · rcases hs : setSessionID c res.setCookie with ⟨c2, e2⟩
    have he2 : e2 = none := by
      rw [hs] at hck
      exact hck
    subst he2
    simp [rpcRespond, h200, hs, hb, he]
  · by_cases h : res.statusCode = 200
    · rcases hs : setSessionID c res.setCookie with ⟨c2, e2⟩
      cases e2 with
      | some e => simp [rpcRespond, h, hs] at hok
      | none =>
        cases hb : res.body with
        | none => simp [rpcRespond, h, hs, hb] at hok
        | some ipaRes =>
          cases he : ipaRes.error with
          | some e => simp [rpcRespond, h, hs, hb, he] at hok
          | none =>
            have : ipaRes = r := by
              simpa [rpcRespond, h, hs, hb, he] using hok
            rw [← this, he]
    · simp [rpcRespond, h] at hok

/-- Witness for C5: a 404 status yields the transport error; a 200
response with no cookie and an error envelope yields the structured
error; a clean 200 response returns an envelope with nil error. -/
theorem claim_C5_witness :
    (rpcRespond ⟨"h", "R", "", "", true, false⟩ ⟨404, "", "", none⟩).2 =
      Except.error (GoError.httpError rpcFailContext 404) ∧
    (rpcRespond ⟨"h", "R", "", "", true, false⟩
        ⟨200, "", "", some ⟨some ⟨"user with name exists", 4002⟩, 0, "", "", none⟩⟩).2 =
      Except.error (GoError.ipaError ⟨"user with name exists", 4002⟩) ∧
    (⟨none, 0, "admin", "2.237", none⟩ : Response).error = none :=
  ⟨(claim_C5 ⟨"h", "R", "", "", true, false⟩ ⟨404, "", "", none⟩).1 (by decide),
   (claim_C5 ⟨"h", "R", "", "", true, false⟩
      ⟨200, "", "", some ⟨some ⟨"user with name exists", 4002⟩, 0, "", "", none⟩⟩).2.1
      rfl (by decide) _ _ rfl rfl,
   (claim_C5 ⟨"h", "R", "", "", true, false⟩
      ⟨200, "", "", some ⟨none, 0, "admin", "2.237", none⟩⟩).2.2
      ⟨none, 0, "admin", "2.237", none⟩ (by decide)⟩

/-- Claim C4: `RemoteLogin` maps the three HTTP 401 rejection reasons to
three pairwise-distinct sentinel errors (`password-expired` to the
expired-password error, `invalid-password` to the invalid-password
error, anything else to the generic unauthorized error), and any other
non-200 status to a generic error carrying the status code. -/
theorem claim_C4 (c : Client) (res : HttpResponse) :
    (res.statusCode = 401 → res.rejectionReason = "password-expired" →
      (remoteLoginRespond c res).2 = some GoError.errExpiredPassword) ∧
    (res.statusCode = 401 → res.rejectionReason = "invalid-password" →
      (remoteLoginRespond c res).2 = some GoError.errInvalidPassword) ∧
    (res.statusCode = 401 → res.rejectionReason ≠ "password-expired" →
      res.rejectionReason ≠ "invalid-password" →
      (remoteLoginRespond c res).2 = some GoError.errUnauthorized) ∧
    (res.statusCode ≠ 401 → res.statusCode ≠ 200 →
      (remoteLoginRespond c res).2 =
        some (GoError.httpError loginFailContext res.statusCode)) ∧
    (GoError.errExpiredPassword ≠ GoError.errInvalidPassword ∧
      GoError.errExpiredPassword ≠ GoError.errUnauthorized ∧
      GoError.errInvalidPassword ≠ GoError.errUnauthorized) := by
  refine ⟨fun h hr => ?_, fun h hr => ?_, fun h hr hr2 => ?_, fun h h2 => ?_,
    by decide, by decide, by decide⟩
  · simp [remoteLoginRespond, h, hr]
  · simp [remoteLoginRespond, h, hr]
  · simp [remoteLoginRespond, h, hr, hr2]
  · simp [remoteLoginRespond, h, h2]

/-- Witness for C4 exercising all four error branches. -/
theorem claim_C4_witness :
    (remoteLoginRespond ⟨"h", "R", "", "", true, false⟩
        ⟨401, "", "password-expired", none⟩).2 = some GoError.errExpiredPassword ∧
    (remoteLoginRespond ⟨"h", "R", "", "", true, false⟩
        ⟨401, "", "invalid-password", none⟩).2 = some GoError.errInvalidPassword ∧
    (remoteLoginRespond ⟨"h", "R", "", "", true, false⟩
        ⟨401, "", "", none⟩).2 = some GoError.errUnauthorized ∧
    (remoteLoginRespond ⟨"h", "R", "", "", true, false⟩
        ⟨500, "", "", none⟩).2 = some (GoError.httpError loginFailContext 500) :=
  ⟨(claim_C4 ⟨"h", "R", "", "", true, false⟩ ⟨401, "", "password-expired", none⟩).1
      rfl rfl,
   (claim_C4 ⟨"h", "R", "", "", true, false⟩ ⟨401, "", "invalid-password", none⟩).2.1
      rfl rfl,
   (claim_C4 ⟨"h", "R", "", "", true, false⟩ ⟨401, "", "", none⟩).2.2.1
      rfl (by decide) (by decide),
   (claim_C4 ⟨"h", "R", "", "", true, false⟩ ⟨500, "", "", none⟩).2.2.2.1
      (by decide) (by decide)⟩

/-- Claim C6: on a server error envelope with the duplicate-entity code
4002, `UserAdd` returns the `ErrUserExists` sentinel; that sentinel is a
value distinct from the structured `*IpaError` returned for any other
(unknown) numeric code, and distinct from the `ErrUnauthorized` sentinel
(the two are separate `errors.New` allocations, even though their
message strings coincide). -/
theorem claim_C6 (username msg : String) (code : Int)
    (hu : username ≠ "") (hc : code ≠ 4002) :
    UserAdd username (Except.error (GoError.ipaError ⟨msg, 4002⟩)) =
      Except.error GoError.errUserExists ∧
    UserAdd username (Except.error (GoError.ipaError ⟨msg, code⟩)) =
      Except.error (GoError.ipaError ⟨msg, code⟩) ∧
    (∀ e : IpaError, GoError.errUserExists ≠ GoError.ipaError e) ∧
    GoError.errUserExists ≠ GoError.errUnauthorized ∧
    GoError.message GoError.errUserExists = GoError.message GoError.errUnauthorized := by
  refine ⟨by simp [UserAdd, hu], by simp [UserAdd, hu, hc], fun e => by simp,
    by decide, rfl⟩

/-- Witness for C6 at a concrete username, message and unknown code. -/
theorem claim_C6_witness :
    UserAdd "alice" (Except.error (GoError.ipaError ⟨"user exists", 4002⟩)) =
      Except.error GoError.errUserExists ∧
    UserAdd "alice" (Except.error (GoError.ipaError ⟨"boom", 911⟩)) =
      Except.error (GoError.ipaError ⟨"boom", 911⟩) :=
  ⟨(claim_C6 "alice" "user exists" 911 (by decide) (by decide)).1,
   (claim_C6 "alice" "boom" 911 (by decide) (by decide)).2.1⟩

/-! ## Claims about value decoding -/

/-- Claim C7: scalar decoding unwraps a JSON array of strings to its
first element, decodes the empty array to the empty string, never errors
on an array input, and is idempotent: decoding, re-encoding the value as
the single-element array, and decoding again gives the first decode. -/
theorem claim_C7 (a : List String) :
    (∃ v, ipaStringUnmarshalJSON "" (some a) = Except.ok v) ∧
    ipaStringUnmarshalJSON "" (some ["alice"]) = Except.ok "alice" ∧
    ipaStringUnmarshalJSON "" (some []) = Except.ok "" ∧
    ipaStringUnmarshal "" [ipaStringUnmarshal "" a] = ipaStringUnmarshal "" a := by
  refine ⟨⟨ipaStringUnmarshal "" a, rfl⟩, rfl, rfl, ?_⟩
  cases a <;> rfl

/-- Claim C8: `ParseDateTime` parses the fixed compact layout
`YYYYMMDDHHMMSSZ`, so `20230115120000Z` decodes to 2023-01-15 12:00:00
(UTC, the layout carrying no zone directive), and every string the
layout cannot parse decodes to the zero timestamp instead of an error. -/
theorem claim_C8 :
    ParseDateTime "20230115120000Z" = ⟨2023, 1, 15, 12, 0, 0⟩ ∧
    ∀ s, timeParseCompact s = none → ParseDateTime s = GoTime.zero := by
  refine ⟨by decide, fun s h => ?_⟩
  simp [ParseDateTime, h]

/-- Witness for C8: an ISO-formatted string does not parse and decodes to
the zero timestamp. -/
theorem claim_C8_witness : ParseDateTime "2023-01-15T12:00:00Z" = GoTime.zero :=
  claim_C8.2 "2023-01-15T12:00:00Z" (by decide)

/-! ## Claims about the SSH authorized key list -/

theorem lastFpIdx_eq_none (fp : String) (l : List SSHAuthorizedKey) :
    lastFpIdx fp l = none ↔ fp ∉ l.map SSHAuthorizedKey.fingerprint := by
  induction l with
  | nil => simp [lastFpIdx]
  | cons k ks ih =>
    cases h : lastFpIdx fp ks with
    | some i =>
      have hmem : fp ∈ ks.map SSHAuthorizedKey.fingerprint := by
        by_contra hn
        rw [← ih] at hn
        simp [h] at hn
      simp [lastFpIdx, h, hmem]
    | none =>
      have hmem : fp ∉ ks.map SSHAuthorizedKey.fingerprint := ih.mp h
      rcases eq_or_ne k.fingerprint fp with he | he
      · simp [lastFpIdx, h, he]
      · simp [lastFpIdx, h, he, hmem, Ne.symm he]

theorem lastFpIdx_get (fp : String) (l : List SSHAuthorizedKey) (i : Nat)
    (h : lastFpIdx fp l = some i) :
    ∃ k, l[i]? = some k ∧ k.fingerprint = fp := by
  induction l generalizing i with
  | nil => simp [lastFpIdx] at h
  | cons k ks ih =>
    cases hks : lastFpIdx fp ks with
    | some j =>
      simp only [lastFpIdx, hks] at h
      obtain rfl : i = j + 1 := (Option.some.inj h).symm
      obtain ⟨k2, hg, hf⟩ := ih j hks
      exact ⟨k2, by simpa using hg, hf⟩
    | none =>
      simp only [lastFpIdx, hks] at h
      by_cases he : k.fingerprint = fp
      · rw [if_pos he] at h
        obtain rfl : i = 0 := (Option.some.inj h).symm
        exact ⟨k, by simp, he⟩
      · rw [if_neg he] at h
        simp at h

theorem lastFpIdx_append (fp : String) (l : List SSHAuthorizedKey)
    (key : SSHAuthorizedKey) (hk : key.fingerprint = fp) :
    lastFpIdx fp (l ++ [key]) = some l.length := by
  induction l with
  | nil => simp [lastFpIdx, hk]
  | cons k ks ih => simp [lastFpIdx, ih]

theorem lastFpIdx_set (fp : String) (l : List SSHAuthorizedKey) (i : Nat)
    (key : SSHAuthorizedKey) (h : lastFpIdx fp l = some i)
    (hk : key.fingerprint = fp) :
    lastFpIdx fp (l.set i key) = some i := by
  induction l generalizing i with
  | nil => simp [lastFpIdx] at h
  | cons k ks ih =>
    cases hks : lastFpIdx fp ks with
    | some j =>
      simp only [lastFpIdx, hks] at h
      obtain rfl : i = j + 1 := (Option.some.inj h).symm
      simp [List.set, lastFpIdx, ih j hks]
    | none =>
      simp only [lastFpIdx, hks] at h
      by_cases he : k.fingerprint = fp
      · rw [if_pos he] at h
        obtain rfl : i = 0 := (Option.some.inj h).symm
        simp [List.set, lastFpIdx, hks, hk]
      · rw [if_neg he] at h
        simp at h

theorem list_set_get_eq {α : Type} (l : List α) (i : Nat) (a : α)
    (h : l[i]? = some a) : l.set i a = l := by
  induction l generalizing i with
  | nil => simp at h
  | cons x xs ih =>
    cases i with
    | zero =>
      simp only [List.getElem?_cons_zero, Option.some.injEq] at h
      simp [List.set, ← h]
    | succ j =>
      simp only [List.getElem?_cons_succ] at h
      simp [List.set, ih j h]

theorem map_fp_set (l : List SSHAuthorizedKey) (i : Nat) (key : SSHAuthorizedKey)
    (h : ∃ k, l[i]? = some k ∧ k.fingerprint = key.fingerprint) :
    (l.set i key).map SSHAuthorizedKey.fingerprint =
      l.map SSHAuthorizedKey.fingerprint := by
  induction l generalizing i with
  | nil => rfl
  | cons x xs ih =>
    obtain ⟨k, hg, hf⟩ := h
    cases i with
    | zero =>
      simp only [List.getElem?_cons_zero, Option.some.injEq] at hg
      have hx : key.fingerprint = x.fingerprint := by
        rw [hg]
        exact hf.symm
      simp [List.set, hx]
    | succ j =>
      simp only [List.getElem?_cons_succ] at hg
      have hxs := ih j ⟨k, hg, hf⟩
      simp only [List.set, List.map_cons]
      rw [hxs]

/-- Claim C10: `AddSSHAuthorizedKey` keys the list by fingerprint: a key
whose fingerprint is absent is appended; a key whose fingerprint is
already present replaces an existing entry in place, keeping the length;
the operation is idempotent; and it preserves freedom from duplicate
fingerprints. -/
theorem claim_C10 (keys : List SSHAuthorizedKey) (key : SSHAuthorizedKey) :
    (key.fingerprint ∉ keys.map SSHAuthorizedKey.fingerprint →
      addSSHAuthorizedKey keys key = keys ++ [key]) ∧
    (key.fingerprint ∈ keys.map SSHAuthorizedKey.fingerprint →
      (addSSHAuthorizedKey keys key).length = keys.length) ∧
    addSSHAuthorizedKey (addSSHAuthorizedKey keys key) key =
      addSSHAuthorizedKey keys key ∧
    ((keys.map SSHAuthorizedKey.fingerprint).Nodup →
      ((addSSHAuthorizedKey keys key).map SSHAuthorizedKey.fingerprint).Nodup) := by
  refine ⟨fun hno => ?_, fun hyes => ?_, ?_, fun hnd => ?_⟩
  · simp [addSSHAuthorizedKey, (lastFpIdx_eq_none _ _).mpr hno]
  · have hne : lastFpIdx key.fingerprint keys ≠ none := by
      rw [Ne, lastFpIdx_eq_none]
      simpa using hyes
    rcases ho : lastFpIdx key.fingerprint keys with _ | i
    · exact absurd ho hne
    · simp [addSSHAuthorizedKey, ho, List.length_set]
  · rcases ho : lastFpIdx key.fingerprint keys with _ | i
    · have h2 : lastFpIdx key.fingerprint (keys ++ [key]) = some keys.length :=
        lastFpIdx_append _ _ _ rfl
      have hg : (keys ++ [key])[keys.length]? = some key := by
        simp
      simp [addSSHAuthorizedKey, ho, h2, list_set_get_eq _ _ _ hg]
    · have h2 := lastFpIdx_set key.fingerprint keys i key ho rfl
      simp [addSSHAuthorizedKey, ho, h2, List.set_set]
  · rcases ho : lastFpIdx key.fingerprint keys with _ | i
    · have hno : key.fingerprint ∉ keys.map SSHAuthorizedKey.fingerprint :=
        (lastFpIdx_eq_none _ _).mp ho
      rw [addSSHAuthorizedKey, ho, List.map_append]
      exact hnd.append (List.nodup_singleton _) (by simpa using hno)
    · obtain ⟨k, hg, hf⟩ := lastFpIdx_get _ _ _ ho
      rw [addSSHAuthorizedKey, ho, map_fp_set keys i key ⟨k, hg, hf⟩]
      exact hnd

/-- Witness for C10: replacing a present fingerprint keeps the length and
duplicate-freedom; an absent fingerprint is appended. -/
theorem claim_C10_witness :
    (addSSHAuthorizedKey [⟨"", [], "pk1", "fp1"⟩] ⟨"c", [], "pk2", "fp1"⟩).length = 1 ∧
    addSSHAuthorizedKey [⟨"", [], "pk1", "fp1"⟩] ⟨"c", [], "pk2", "fp2"⟩ =
      [⟨"", [], "pk1", "fp1"⟩, ⟨"c", [], "pk2", "fp2"⟩] ∧
    ((addSSHAuthorizedKey [⟨"", [], "pk1", "fp1"⟩] ⟨"c", [], "pk2", "fp1"⟩).map
        SSHAuthorizedKey.fingerprint).Nodup :=
  ⟨(claim_C10 [⟨"", [], "pk1", "fp1"⟩] ⟨"c", [], "pk2", "fp1"⟩).2.1 (by decide),
   (claim_C10 [⟨"", [], "pk1", "fp1"⟩] ⟨"c", [], "pk2", "fp2"⟩).1 (by decide),
   (claim_C10 [⟨"", [], "pk1", "fp1"⟩] ⟨"c", [], "pk2", "fp1"⟩).2.2.2 (by decide)⟩

end GoIpa
